import Mathlib

/-!
Verification development for the DocuChat backend (keshavghimire/DocuChat).

Shallow embedding of the ingestion pipeline and the scoped vector-retrieval
engine:
  * `backend/chunking.py`     — `split_into_chunks`
  * `backend/vector_store.py` — document records, chunk store operations
  * `backend/retriever.py`    — `MongoAtlasVectorRetriever._get_relevant_documents`
  * `backend/api.py`          — `process_document_background`, upload flow,
                                `ui_delete_document`

External collaborators (PDF loader output, the text splitter's per-string
split, the embedding provider, the Mongo store's insert/search behaviour)
are passed in as explicit parameters so that every control path of the
repository code is a total Lean function of those inputs.  Vector entries
are modelled as `Int` (the claims under study only concern vector lengths,
ordering and provenance, never float arithmetic).  Wall-clock timestamp
fields (`createdAt`, `updatedAt`) are omitted: no claim mentions their
values.
-/

set_option maxRecDepth 16384

namespace DocuChat

/-- Document lifecycle status, `backend/vector_store.py` strings
"PROCESSING" / "READY" / "ERROR". -/
inductive DocStatus where
  | PROCESSING
  | READY
  | ERROR
deriving DecidableEq, Repr

/-- A document record as created by `create_document_record`
(`backend/vector_store.py` lines 45-66), without the timestamp fields. -/
structure DocRecord where
  documentId : String
  sessionId : String
  fileName : String
  status : DocStatus
  pages : Nat
  errorMessage : Option String
deriving DecidableEq, Repr

/-- A stored chunk document as built in `process_document_background`
(`backend/api.py` lines 262-280), without the timestamp field. -/
structure ChunkDoc where
  sessionId : String
  documentId : String
  text : String
  embedding : List Int
  page : Nat
  source : String
  chunkIndex : Nat
deriving DecidableEq, Repr

/-- The two persisted collections (`documents` and `chunks`). -/
structure Store where
  documents : List DocRecord
  chunks : List ChunkDoc
deriving DecidableEq, Repr

/-- One page produced by `load_pdf_pages` (`backend/loaders.py`): page
content plus the metadata pair `page` / `source`. -/
structure Page where
  text : String
  page : Nat
  source : String
deriving DecidableEq, Repr

/-- One chunk produced by the splitter: page content plus the inherited
`page` / `source` metadata. -/
structure SplitChunk where
  pageContent : String
  page : Nat
  source : String
deriving DecidableEq, Repr

/-- `split_into_chunks` (`backend/chunking.py` lines 9-27).  It delegates to
`RecursiveCharacterTextSplitter.split_documents`, which splits each page's
text (the per-string splitting behaviour is the external parameter
`splitText`) and copies that page's metadata onto every resulting chunk.
The function is total and returns a plain list: there is no error channel,
and on the empty page list it returns the empty chunk list. -/
def split_into_chunks (splitText : String → List String) (pages : List Page) :
    List SplitChunk :=
  pages.flatMap (fun p => (splitText p.text).map
    (fun t => SplitChunk.mk t p.page p.source))

/-- `update_document_status` (`backend/vector_store.py` lines 69-83):
`update_one` on the first record matching `documentId`, `$set`-ing
`status` always, `pages` only when the argument is not `None`, and
`errorMessage` only when the argument is not `None`. -/
def update_document_status (documentId : String) (status : DocStatus)
    (pages : Option Nat) (errorMessage : Option String) :
    List DocRecord → List DocRecord
  | [] => []
  | d :: ds =>
    if d.documentId = documentId then
      { d with
        status := status
        pages := pages.getD d.pages
        errorMessage := match errorMessage with
          | some m => some m
          | none => d.errorMessage } :: ds
    else d :: update_document_status documentId status pages errorMessage ds

/-- Behaviour of the store during one `insert_many` call.  `ok` is a fully
successful insert; `failAt k` models pymongo's ordered `insert_many`
raising while inserting the 0-based `k`-th document, in which case the
first `k` documents remain inserted (pymongo semantics for an ordered
bulk write). -/
inductive InsertBehavior where
  | ok
  | failAt (k : Nat)
deriving DecidableEq, Repr

/-- Result of one `insert_many` call under an `InsertBehavior`: the
documents that actually entered the collection, and either the inserted
count or the raised error. -/
def insertManyResult (b : InsertBehavior) (docs : List ChunkDoc) :
    List ChunkDoc × Except String Nat :=
  match b with
  | .ok => (docs, .ok docs.length)
  | .failAt k =>
    if docs.length ≤ k then (docs, .ok docs.length)
    else (docs.take k, .error "bulk write error during insert_many")

/-- `insert_chunks` (`backend/vector_store.py` lines 107-112): empty input
is a no-op returning 0; otherwise one `insert_many` call whose partial
effect (under failure) stays in the collection.  Returns the chunk
collection after the call together with the count or raised error. -/
def insert_chunks (b : InsertBehavior) (store : List ChunkDoc)
    (chunkDocs : List ChunkDoc) : List ChunkDoc × Except String Nat :=
  if chunkDocs.isEmpty then (store, .ok 0)
  else
    let r := insertManyResult b chunkDocs
    (store ++ r.1, r.2)

/-- The dimension-mismatch message raised in `process_document_background`
(`backend/api.py` lines 255-259); it names the observed and the expected
length. -/
def dimensionMismatchMessage (got expected : Nat) : String :=
  "Embedding dimensions mismatch. Got " ++ toString got ++ ", expected "
    ++ toString expected
    ++ ". Update EMBEDDINGS_DIMENSIONS and recreate the Atlas Vector Search index."

/-- The chunk documents built in `process_document_background`
(`backend/api.py` lines 261-280): `enumerate(zip(split_chunks, vectors))`,
so the pairing silently truncates to the shorter of the two lists. -/
def buildChunkDocs (sessionId documentId : String)
    (splitChunks : List SplitChunk) (vectors : List (List Int)) :
    List ChunkDoc :=
  (splitChunks.zip vectors).enum.map fun p =>
    ChunkDoc.mk sessionId documentId p.2.1.pageContent p.2.2 p.2.1.page
      p.2.1.source p.1

/-- The `try` block of `process_document_background` (`backend/api.py`
lines 241-284): load pages, reject an empty page list, split, embed,
check the FIRST returned vector's length against the configured
dimensionality (`if vectors and len(vectors[0]) != settings.embeddings_dimensions`),
build the chunk documents, insert them, and reject an inserted count of 0.
Returns the chunk collection after any insert effect, and either the page
count (success) or the raised error message. -/
def tryIngest (D : Nat) (documentId sessionId : String)
    (loadResult : Except String (List Page))
    (splitText : String → List String)
    (embedDocuments : List String → Except String (List (List Int)))
    (b : InsertBehavior) (chunks0 : List ChunkDoc) :
    List ChunkDoc × Except String Nat :=
  match loadResult with
  | .error e => (chunks0, .error e)
  | .ok pages =>
    if pages.isEmpty then
      (chunks0, .error "No text could be extracted from this PDF.")
    else
      let splitChunks := split_into_chunks splitText pages
      let texts := splitChunks.map (fun c => c.pageContent)
      match embedDocuments texts with
      | .error e => (chunks0, .error e)
      | .ok vectors =>
        if !vectors.isEmpty && (vectors.headD []).length != D then
          (chunks0,
           .error (dimensionMismatchMessage (vectors.headD []).length D))
        else
          let chunkDocs := buildChunkDocs sessionId documentId splitChunks vectors
          let r := insert_chunks b chunks0 chunkDocs
          match r.2 with
          | .error e => (r.1, .error e)
          | .ok inserted =>
            if inserted = 0 then
              (r.1, .error "No chunks were stored (empty document).")
            else (r.1, .ok pages.length)

/-- `process_document_background` (`backend/api.py` lines 201-306): run the
`try` block, then finalize the document record — READY with the true page
count on success (`error_message=None`, so `errorMessage` is left as it
was), ERROR with `pages=0` and the raised message on failure.  The chunk
collection keeps whatever the `try` block inserted: the `except` branch
performs no chunk cleanup. -/
def process_document_background (D : Nat) (documentId sessionId : String)
    (loadResult : Except String (List Page))
    (splitText : String → List String)
    (embedDocuments : List String → Except String (List (List Int)))
    (b : InsertBehavior) (store : Store) : Store :=
  let r := tryIngest D documentId sessionId loadResult splitText
    embedDocuments b store.chunks
  match r.2 with
  | .ok npages =>
    Store.mk
      (update_document_status documentId .READY (some npages) none
        store.documents)
      r.1
  | .error e =>
    Store.mk
      (update_document_status documentId .ERROR (some 0) (some e)
        store.documents)
      r.1

/-- The upload flow of `upload_pdf` (`backend/api.py` lines 330-379)
restricted to the status updates a single document's record receives.
After `create_document_record` writes a PROCESSING record, exactly one of
two paths follows: `_save_upload_to_disk` raises (`saveOk = false`), in
which case the handler sets ERROR and never enqueues the background task;
or the save succeeds and `process_document_background` runs, whose `try`
/ `except` structure always performs exactly one final update — READY on
success, ERROR otherwise.  `ui_delete_document` is the only other route
touching the record and it never calls `update_document_status`. -/
def finalDocStatus (saveOk : Bool) (D : Nat) (documentId sessionId : String)
    (loadResult : Except String (List Page))
    (splitText : String → List String)
    (embedDocuments : List String → Except String (List (List Int)))
    (b : InsertBehavior) (chunks0 : List ChunkDoc) : DocStatus :=
  if saveOk then
    match (tryIngest D documentId sessionId loadResult splitText
      embedDocuments b chunks0).2 with
    | .ok _ => .READY
    | .error _ => .ERROR
  else .ERROR

/-- The sequence of status values one document record takes across its
reachable update operations: PROCESSING at creation, then the single
final update of the upload/ingestion flow. -/
def docStatusTrace (saveOk : Bool) (D : Nat) (documentId sessionId : String)
    (loadResult : Except String (List Page))
    (splitText : String → List String)
    (embedDocuments : List String → Except String (List (List Int)))
    (b : InsertBehavior) (chunks0 : List ChunkDoc) : List DocStatus :=
  [.PROCESSING,
   finalDocStatus saveOk D documentId sessionId loadResult splitText
     embedDocuments b chunks0]

/-- Terminal states of the document lifecycle (spec section 4.3). -/
def isTerminal : DocStatus → Bool
  | .READY => true
  | .ERROR => true
  | .PROCESSING => false

/-- `delete_document_and_chunks` (`backend/vector_store.py` lines 96-104):
`delete_one` on `{"documentId": id}` with `sessionId` added ONLY when the
`session_id` argument is truthy (`if session_id:` is false for `None` and
for the empty string), then `delete_many({"documentId": id})` on the
chunks with no session filter.  `deleteOneDoc` removes the first matching
record, as `delete_one` does. -/
def deleteOneDoc (p : DocRecord → Bool) : List DocRecord → List DocRecord
  | [] => []
  | d :: ds => if p d then ds else d :: deleteOneDoc p ds

/-- The document-side match predicate of `delete_document_and_chunks` for a
given `document_id` / `session_id` argument pair. -/
def deleteDocQuery (documentId : String) (sessionId : Option String)
    (d : DocRecord) : Bool :=
  d.documentId == documentId &&
    (match sessionId with
     | some s => if s = "" then true else d.sessionId == s
     | none => true)

/-- `delete_document_and_chunks` itself, returning both collections after
the two deletes. -/
def delete_document_and_chunks (documentId : String)
    (sessionId : Option String) (documents : List DocRecord)
    (chunks : List ChunkDoc) : List DocRecord × List ChunkDoc :=
  (deleteOneDoc (deleteDocQuery documentId sessionId) documents,
   chunks.filter (fun c => !(c.documentId == documentId)))

/-! ## Retrieval engine (`backend/retriever.py`) -/

/-- The `$vectorSearch` filter built by `_vector_search_pipeline`
(`backend/retriever.py` lines 32-35): always `sessionId`, plus
`documentId` when `self.document_id` is truthy (`if self.document_id:` is
false for `None` and for the empty string). -/
structure VSFilter where
  sessionId : String
  documentId : Option String
deriving DecidableEq, Repr

/-- Build the filter document exactly as `_vector_search_pipeline` does. -/
def vector_search_filter (sessionId : String) (documentId : Option String) :
    VSFilter :=
  VSFilter.mk sessionId
    (match documentId with
     | some d => if d = "" then none else some d
     | none => none)

/-- A raw record as produced by the `$project` stage of the pipeline
(`backend/retriever.py` lines 48-57): text, page, source, documentId and
the similarity score.  A record missing `text` is read back as `""` by
`r.get("text", "")`. -/
structure RawResult where
  text : String
  page : Nat
  source : String
  documentId : String
  score : Int
deriving DecidableEq, Repr

/-- Whether a stored chunk matches a `$vectorSearch` filter document.
Modelled from the spec: the store's nearest-neighbor stage "accepting
{index, path, queryVector, numCandidates, limit, filter}" restricts
candidates to records matching the filter (spec sections 4.5 and 6); the
store itself (MongoDB Atlas) is outside the repository. -/
def matchesFilter (f : VSFilter) (c : ChunkDoc) : Bool :=
  c.sessionId == f.sessionId &&
    (match f.documentId with
     | some d => c.documentId == d
     | none => true)

/-- Insert a chunk into a score-descending list, keeping it sorted. -/
def insertRanked (score : ChunkDoc → Int) (c : ChunkDoc) :
    List ChunkDoc → List ChunkDoc
  | [] => [c]
  | x :: xs =>
    if score x < score c then c :: x :: xs else x :: insertRanked score c xs

/-- Rank a candidate list by descending similarity score. -/
def rankByScore (score : ChunkDoc → Int) (l : List ChunkDoc) :
    List ChunkDoc :=
  l.foldr (insertRanked score) []

/-- The `$project` stage applied to one matching chunk. -/
def projectChunk (score : ChunkDoc → Int) (c : ChunkDoc) : RawResult :=
  RawResult.mk c.text c.page c.source c.documentId (score c)

/-- Modelled from the spec: execution of the aggregation pipeline by the
document store (spec section 6's "document store with native
nearest-neighbor search"; the store is external to the repository).
Candidates are restricted to chunks matching the filter, ranked by the
store's similarity metric (the opaque `score` parameter), cut to
`numCandidates` and then to `limit`, and projected. -/
def vectorSearchExec (score : ChunkDoc → Int) (f : VSFilter)
    (numCandidates limit : Nat) (store : List ChunkDoc) : List RawResult :=
  (((rankByScore score (store.filter (matchesFilter f))).take
      numCandidates).take limit).map (projectChunk score)

/-- A retrieval result handed back by the engine (a langchain `Document`
restricted to the fields the retriever fills in,
`backend/retriever.py` lines 104-114). -/
structure RetrievedDoc where
  pageContent : String
  page : Nat
  source : String
  documentId : String
  similarity : Int
deriving DecidableEq, Repr

/-- The mapping from one raw store record to a returned document. -/
def toDoc (r : RawResult) : RetrievedDoc :=
  RetrievedDoc.mk r.text r.page r.source r.documentId r.score

/-- The result-mapping loop of `_get_relevant_documents`
(`backend/retriever.py` lines 99-115): walk the raw results in store
order, skip any record whose text is empty (`if not text: continue`),
append the rest unchanged.  No sorting of any kind. -/
def docsOfResults : List RawResult → List RetrievedDoc
  | [] => []
  | r :: rs =>
    if r.text = "" then docsOfResults rs else toDoc r :: docsOfResults rs

/-- `_get_relevant_documents` (`backend/retriever.py` lines 60-115):
re-raise an `embed_query` failure; raise
`"Query vector dimension mismatch: expected 384, got L"` when the query
vector's length differs from the hard-coded 384; otherwise run the
aggregation (`search`), returning `[]` if it raises and the mapped
results if it succeeds. -/
def get_relevant_documents (embedQueryResult : Except String (List Int))
    (search : List Int → Except String (List RawResult)) :
    Except String (List RetrievedDoc) :=
  match embedQueryResult with
  | .error e => .error e
  | .ok qv =>
    if qv.length != 384 then
      .error ("Query vector dimension mismatch: expected 384, got "
        ++ toString qv.length)
    else
      match search qv with
      | .error _ => .ok []
      | .ok results => .ok (docsOfResults results)

/-- `Settings.embeddings_dimensions` default (`backend/settings.py` line
43): the configured dimensionality `D`, overridable via the
`EMBEDDINGS_DIMENSIONS` environment variable. -/
def defaultEmbeddingsDimensions : Nat := 384

/-- The retrieval engine run against a concrete chunk store: the query
embedding outcome feeds `_get_relevant_documents`, whose search callback
is the store's pipeline execution with the filter built by
`_vector_search_pipeline`. -/
def retrieveFromStore (score : ChunkDoc → Int)
    (embedQueryResult : Except String (List Int)) (sessionId : String)
    (documentId : Option String) (numCandidates limit : Nat)
    (store : List ChunkDoc) : Except String (List RetrievedDoc) :=
  get_relevant_documents embedQueryResult
    (fun _ => .ok (vectorSearchExec score
      (vector_search_filter sessionId documentId) numCandidates limit store))

/-! ## Helper lemmas -/

/-- The result-mapping loop is the empty-text filter followed by the field
mapping, in store order. -/
theorem docsOfResults_eq (rs : List RawResult) :
    docsOfResults rs = (rs.filter (fun r => !(r.text == ""))).map toDoc := by
  induction rs with
  | nil => rfl
  | cons r rs ih =>
    by_cases h : r.text = "" <;>
      simp [docsOfResults, List.filter_cons, h, ih]

/-- Membership in an `insertRanked` result comes from the inserted element
or the original list. -/
theorem mem_insertRanked {score : ChunkDoc → Int} {c a : ChunkDoc}
    {l : List ChunkDoc} (h : a ∈ insertRanked score c l) : a = c ∨ a ∈ l := by
  induction l with
  | nil =>
    simp [insertRanked] at h
    exact Or.inl h
  | cons x xs ih =>
    rw [insertRanked] at h
    by_cases hc : score x < score c
    · rw [if_pos hc] at h
      rcases List.mem_cons.mp h with h1 | h2
      · exact Or.inl h1
      · exact Or.inr h2
    · rw [if_neg hc] at h
      rcases List.mem_cons.mp h with h1 | h2
      · exact Or.inr (by simp [h1])
      · rcases ih h2 with h3 | h4
        · exact Or.inl h3
        · exact Or.inr (List.mem_cons_of_mem _ h4)

/-- Ranking by score never invents elements. -/
theorem mem_rankByScore {score : ChunkDoc → Int} {l : List ChunkDoc}
    {a : ChunkDoc} (h : a ∈ rankByScore score l) : a ∈ l := by
  induction l with
  | nil => simp [rankByScore] at h
  | cons x xs ih =>
    have hx : rankByScore score (x :: xs)
        = insertRanked score x (rankByScore score xs) := rfl
    rw [hx] at h
    rcases mem_insertRanked h with h1 | h2
    · simp [h1]
    · exact List.mem_cons_of_mem _ (ih h2)

/-- Every record returned by the store's pipeline execution is the
projection of a stored chunk matching the filter. -/
theorem mem_vectorSearchExec {score : ChunkDoc → Int} {f : VSFilter}
    {nc k : Nat} {store : List ChunkDoc} {r : RawResult}
    (h : r ∈ vectorSearchExec score f nc k store) :
    ∃ c, c ∈ store ∧ matchesFilter f c = true ∧ r = projectChunk score c := by
  rcases List.mem_map.mp h with ⟨c, hc, hproj⟩
  have hc1 := List.mem_of_mem_take hc
  have hc2 := List.mem_of_mem_take hc1
  have hc3 := mem_rankByScore hc2
  have hc4 := List.mem_filter.mp hc3
  exact ⟨c, hc4.1, hc4.2, hproj.symm⟩

/-- `delete_one` with a query matching nothing leaves the collection
unchanged. -/
theorem deleteOneDoc_no_match {p : DocRecord → Bool} {l : List DocRecord}
    (h : ∀ d ∈ l, p d = false) : deleteOneDoc p l = l := by
  induction l with
  | nil => rfl
  | cons x xs ih =>
    rw [deleteOneDoc, if_neg (by simp [h x (List.mem_cons_self x xs)])]
    rw [ih (fun d hd => h d (List.mem_cons_of_mem _ hd))]

/-! ## Claim theorems -/

/-- C8: for every list of raw store results, the engine's mapping skips
exactly the records with empty text and returns the rest as `toDoc`
images in the store's order (a filter-then-map, which preserves relative
order and never re-sorts). -/
theorem C8_mapping_filters_empty_text_preserves_order (rs : List RawResult) :
    docsOfResults rs = (rs.filter (fun r => !(r.text == ""))).map toDoc :=
  docsOfResults_eq rs

/-- C3: if the underlying nearest-neighbor search raises, the engine
returns the empty result list instead of propagating the error (given the
query vector passed the hard-coded length check, so the search is in fact
reached). -/
theorem C3_search_failure_degrades_to_empty (qv : List Int)
    (h : qv.length = 384) (e : String) :
    get_relevant_documents (.ok qv) (fun _ => .error e) = .ok [] := by
  simp [get_relevant_documents, h]

/-- Witness for C3 at a concrete 384-length query vector. -/
theorem C3_search_failure_degrades_to_empty_witness :
    get_relevant_documents (.ok (List.replicate 384 (0 : Int)))
      (fun _ => .error "connection reset") = .ok [] :=
  C3_search_failure_degrades_to_empty (List.replicate 384 0)
    (by simp) "connection reset"

/-- C4 counterexample: with the configured dimensionality `D = 256` and a
query vector of length `L = 256 = D`, the engine raises its hard-coded
384 check instead of issuing the search — the available, successful
search result is never used, refuting "the search is issued if and only
if `L` equals `D`". -/
theorem C4_counterexample :
    get_relevant_documents (.ok (List.replicate 256 (0 : Int)))
      (fun _ => .ok [RawResult.mk "hello" 1 "f.pdf" "d1" 5])
      = .error "Query vector dimension mismatch: expected 384, got 256" := by
  rfl

/-- C4 (amended): the engine's query-vector check is the hard-coded
literal 384, independent of the configured dimensionality: for every
query vector and every store answer, the search outcome is used exactly
when the vector's length is 384. -/
theorem C4_search_issued_iff_length_384 (qv : List Int)
    (rs : List RawResult) :
    get_relevant_documents (.ok qv) (fun _ => .ok rs)
        = .ok (docsOfResults rs) ↔ qv.length = 384 := by
  by_cases h : qv.length = 384
  · simp [get_relevant_documents, h]
  · simp [get_relevant_documents, h]

/-- Witness for C4's amended theorem at a concrete 384-length vector. -/
theorem C4_search_issued_iff_length_384_witness :
    get_relevant_documents (.ok (List.replicate 384 (0 : Int)))
      (fun _ => .ok [RawResult.mk "hello" 1 "f.pdf" "d1" 5])
      = .ok (docsOfResults [RawResult.mk "hello" 1 "f.pdf" "d1" 5]) :=
  (C4_search_issued_iff_length_384 (List.replicate 384 0)
    [RawResult.mk "hello" 1 "f.pdf" "d1" 5]).mpr (by simp)

/-- C5 counterexample: the Passage Splitter (`split_into_chunks`) has no
failure channel at all — on the empty page sequence it silently returns
the empty passage list (shown here for a concrete per-string splitter; the
definition never inspects emptiness). -/
theorem C5_counterexample :
    split_into_chunks (fun s => [s]) [] = [] := rfl

/-- C5 (amended): the empty-input check lives in the Orchestrator, not the
Splitter: `process_document_background` rejects an empty page sequence
before ever invoking the splitter, raising
"No text could be extracted from this PDF." and ending the document in
ERROR with the chunk store untouched. -/
theorem C5_orchestrator_rejects_empty_pages (D : Nat)
    (documentId sessionId : String) (splitText : String → List String)
    (embedDocuments : List String → Except String (List (List Int)))
    (b : InsertBehavior) (store : Store) :
    process_document_background D documentId sessionId (.ok []) splitText
        embedDocuments b store
      = Store.mk
          (update_document_status documentId .ERROR (some 0)
            (some "No text could be extracted from this PDF.")
            store.documents)
          store.chunks := rfl

/-- C1 counterexample: with configured `D = 2` the provider returns
`[[0,0],[0]]` — the second vector has length 1 ≠ 2 — yet ingestion does
NOT fail: only `vectors[0]` is checked, both chunks (one carrying the
wrong-length embedding) are written to the store, and the record ends
READY. -/
theorem C1_counterexample :
    process_document_background 2 "d1" "s1" (.ok [Page.mk "ab" 1 "f.pdf"])
        (fun s => [s, s]) (fun _ => .ok [[0, 0], [0]]) .ok
        (Store.mk [DocRecord.mk "d1" "s1" "f.pdf" .PROCESSING 0 none] [])
      = Store.mk [DocRecord.mk "d1" "s1" "f.pdf" .READY 1 none]
          [ChunkDoc.mk "s1" "d1" "ab" [0, 0] 1 "f.pdf" 0,
           ChunkDoc.mk "s1" "d1" "ab" [0] 1 "f.pdf" 1]
      ∧ ([0] : List Int).length ≠ 2 :=
  ⟨rfl, by decide⟩

/-- C1 (amended): the dimension validation covers only the FIRST returned
vector: when the provider's vector list is non-empty and its first
vector's length differs from the configured `D`, ingestion fails with the
mismatch message naming the observed and expected lengths, the record
ends ERROR, and no chunk record is written (the chunk store is exactly as
before). -/
theorem C1_first_vector_dim_mismatch_fails_before_write (D : Nat)
    (documentId sessionId : String) (pages : List Page)
    (splitText : String → List String)
    (embedDocuments : List String → Except String (List (List Int)))
    (vectors : List (List Int)) (b : InsertBehavior) (store : Store)
    (hp : pages ≠ [])
    (he : embedDocuments ((split_into_chunks splitText pages).map
        (fun c => c.pageContent)) = .ok vectors)
    (hv : vectors ≠ [])
    (hd : (vectors.headD []).length ≠ D) :
    process_document_background D documentId sessionId (.ok pages) splitText
        embedDocuments b store
      = Store.mk
          (update_document_status documentId .ERROR (some 0)
            (some (dimensionMismatchMessage (vectors.headD []).length D))
            store.documents)
          store.chunks := by
  have hpe : pages.isEmpty = false := by
    cases pages with
    | nil => exact absurd rfl hp
    | cons a l => rfl
  have hve : vectors.isEmpty = false := by
    cases vectors with
    | nil => exact absurd rfl hv
    | cons a l => rfl
  have hd' : (vectors.head?.getD []).length ≠ D := by
    rw [← List.headD_eq_head?]; exact hd
  simp [process_document_background, tryIngest, hpe, hve, he, hd']

/-- Witness for C1's amended theorem: `D = 2`, one chunk, first (and only)
vector of length 3. -/
theorem C1_first_vector_dim_mismatch_fails_before_write_witness :
    process_document_background 2 "d1" "s1" (.ok [Page.mk "ab" 1 "f.pdf"])
        (fun s => [s]) (fun _ => .ok [[0, 0, 0]]) .ok
        (Store.mk [DocRecord.mk "d1" "s1" "f.pdf" .PROCESSING 0 none] [])
      = Store.mk
          (update_document_status "d1" .ERROR (some 0)
            (some (dimensionMismatchMessage
              (([[0, 0, 0]] : List (List Int)).headD []).length 2))
            [DocRecord.mk "d1" "s1" "f.pdf" .PROCESSING 0 none])
          [] :=
  C1_first_vector_dim_mismatch_fails_before_write 2 "d1" "s1"
    [Page.mk "ab" 1 "f.pdf"] (fun s => [s]) (fun _ => .ok [[0, 0, 0]])
    [[0, 0, 0]] .ok
    (Store.mk [DocRecord.mk "d1" "s1" "f.pdf" .PROCESSING 0 none] [])
    (by decide) rfl (by decide) (by decide)

/-- C2 counterexample: the single `insert_many` call fails while inserting
the second of two chunk documents (pymongo's ordered bulk write keeps the
first).  The document ends ERROR, yet one chunk record for `"d1"` remains
persisted — a partial chunk set survives the failed ingestion because the
`except` branch performs no chunk cleanup. -/
theorem C2_counterexample :
    process_document_background 2 "d1" "s1" (.ok [Page.mk "ab" 1 "f.pdf"])
        (fun s => [s, s]) (fun _ => .ok [[0, 0], [0, 0]]) (.failAt 1)
        (Store.mk [DocRecord.mk "d1" "s1" "f.pdf" .PROCESSING 0 none] [])
      = Store.mk
          [DocRecord.mk "d1" "s1" "f.pdf" .ERROR 0
            (some "bulk write error during insert_many")]
          [ChunkDoc.mk "s1" "d1" "ab" [0, 0] 1 "f.pdf" 0] := rfl

/-- C2 (amended): a failure raised before the chunk-insert call (PDF load
error, empty page list, embedding failure, or the first-vector dimension
mismatch) ends the document in ERROR with the chunk store exactly as
before — zero chunks persisted for the document.  If instead the single
`insert_many` call fails part-way, the already-inserted chunk records
remain even though the document ends ERROR (see the counterexample). -/
theorem C2_preinsert_failure_leaves_no_chunks (D : Nat)
    (documentId sessionId : String)
    (loadResult : Except String (List Page))
    (splitText : String → List String)
    (embedDocuments : List String → Except String (List (List Int)))
    (b : InsertBehavior) (store : Store)
    (h : (∃ e, loadResult = .error e) ∨
         loadResult = .ok [] ∨
         (∃ pages e, loadResult = .ok pages ∧
            embedDocuments ((split_into_chunks splitText pages).map
              (fun c => c.pageContent)) = .error e) ∨
         (∃ pages vectors, loadResult = .ok pages ∧
            embedDocuments ((split_into_chunks splitText pages).map
              (fun c => c.pageContent)) = .ok vectors ∧
            vectors ≠ [] ∧ (vectors.headD []).length ≠ D)) :
    ∃ e, process_document_background D documentId sessionId loadResult
        splitText embedDocuments b store
      = Store.mk
          (update_document_status documentId .ERROR (some 0) (some e)
            store.documents)
          store.chunks := by
  rcases h with ⟨e, rfl⟩ | rfl | ⟨pages, e, rfl, he⟩ |
    ⟨pages, vectors, rfl, he, hv, hd⟩
  · exact ⟨e, rfl⟩
  · exact ⟨_, rfl⟩
  · by_cases hp : pages = []
    · subst hp; exact ⟨_, rfl⟩
    · have hpe : pages.isEmpty = false := by
        cases pages with
        | nil => exact absurd rfl hp
        | cons a l => rfl
      exact ⟨e, by simp [process_document_background, tryIngest, hpe, he]⟩
  · by_cases hp : pages = []
    · subst hp; exact ⟨_, rfl⟩
    · have hpe : pages.isEmpty = false := by
        cases pages with
        | nil => exact absurd rfl hp
        | cons a l => rfl
      have hve : vectors.isEmpty = false := by
        cases vectors with
        | nil => exact absurd rfl hv
        | cons a l => rfl
      have hd' : (vectors.head?.getD []).length ≠ D := by
        rw [← List.headD_eq_head?]; exact hd
      refine ⟨dimensionMismatchMessage (vectors.headD []).length D, ?_⟩
      rw [List.headD_eq_head?]
      simp [process_document_background, tryIngest, hpe, hve, he, hd']

/-- Witness for C2's amended theorem: a PDF load failure. -/
theorem C2_preinsert_failure_leaves_no_chunks_witness :
    ∃ e, process_document_background 2 "d1" "s1" (.error "unreadable PDF")
        (fun s => [s]) (fun _ => .ok [[0, 0]]) .ok
        (Store.mk [DocRecord.mk "d1" "s1" "f.pdf" .PROCESSING 0 none] [])
      = Store.mk
          (update_document_status "d1" .ERROR (some 0) (some e)
            [DocRecord.mk "d1" "s1" "f.pdf" .PROCESSING 0 none])
          [] :=
  C2_preinsert_failure_leaves_no_chunks 2 "d1" "s1" (.error "unreadable PDF")
    (fun s => [s]) (fun _ => .ok [[0, 0]]) .ok
    (Store.mk [DocRecord.mk "d1" "s1" "f.pdf" .PROCESSING 0 none] [])
    (Or.inl ⟨"unreadable PDF", rfl⟩)

/-- C10: when the provider returns fewer vectors than there are passages
(`0 < len(vectors) < len(split_chunks)`, first vector of the configured
length, store accepting the insert), the orchestrator persists exactly
the first `len(vectors)` passages — `zip` truncates the pairing — and
still finalizes the record READY with the full page count and no error
recorded. -/
theorem C10_fewer_vectors_truncates_and_marks_ready (D : Nat)
    (documentId sessionId : String) (pages : List Page)
    (splitText : String → List String)
    (embedDocuments : List String → Except String (List (List Int)))
    (vectors : List (List Int)) (store : Store)
    (hp : pages ≠ [])
    (he : embedDocuments ((split_into_chunks splitText pages).map
        (fun c => c.pageContent)) = .ok vectors)
    (hv : vectors ≠ [])
    (hlen : (vectors.headD []).length = D)
    (hlt : vectors.length < (split_into_chunks splitText pages).length) :
    process_document_background D documentId sessionId (.ok pages) splitText
        embedDocuments .ok store
      = Store.mk
          (update_document_status documentId .READY (some pages.length) none
            store.documents)
          (store.chunks ++ buildChunkDocs sessionId documentId
            (split_into_chunks splitText pages) vectors)
      ∧ (buildChunkDocs sessionId documentId
          (split_into_chunks splitText pages) vectors).length
        = vectors.length := by
  have hpe : pages.isEmpty = false := by
    cases pages with
    | nil => exact absurd rfl hp
    | cons a l => rfl
  have hblen : (buildChunkDocs sessionId documentId
      (split_into_chunks splitText pages) vectors).length
      = vectors.length := by
    simp [buildChunkDocs]
    omega
  have hpos : 0 < (buildChunkDocs sessionId documentId
      (split_into_chunks splitText pages) vectors).length := by
    rw [hblen]
    exact List.length_pos.mpr hv
  have hbne : (buildChunkDocs sessionId documentId
      (split_into_chunks splitText pages) vectors).isEmpty = false := by
    cases hbc : buildChunkDocs sessionId documentId
        (split_into_chunks splitText pages) vectors with
    | nil => rw [hbc] at hpos; simp at hpos
    | cons a l => rfl
  have hnz : (buildChunkDocs sessionId documentId
      (split_into_chunks splitText pages) vectors).length ≠ 0 :=
    Nat.pos_iff_ne_zero.mp hpos
  have hlen' : (vectors.head?.getD []).length = D := by
    rw [← List.headD_eq_head?]; exact hlen
  refine ⟨?_, hblen⟩
  simp [process_document_background, tryIngest, hpe, he, hlen',
    insert_chunks, insertManyResult, hbne, hnz]

/-- Witness for C10: three passages, two vectors of the configured
length 2; both chunks persist and the record is READY. -/
theorem C10_fewer_vectors_truncates_and_marks_ready_witness :
    process_document_background 2 "d1" "s1" (.ok [Page.mk "abc" 1 "f.pdf"])
        (fun s => [s, s, s]) (fun _ => .ok [[0, 0], [1, 1]]) .ok
        (Store.mk [DocRecord.mk "d1" "s1" "f.pdf" .PROCESSING 0 none] [])
      = Store.mk
          (update_document_status "d1" .READY
            (some ([Page.mk "abc" 1 "f.pdf"] : List Page).length) none
            [DocRecord.mk "d1" "s1" "f.pdf" .PROCESSING 0 none])
          ([] ++ buildChunkDocs "s1" "d1"
            (split_into_chunks (fun s => [s, s, s]) [Page.mk "abc" 1 "f.pdf"])
            [[0, 0], [1, 1]])
      ∧ (buildChunkDocs "s1" "d1"
          (split_into_chunks (fun s => [s, s, s]) [Page.mk "abc" 1 "f.pdf"])
          [[0, 0], [1, 1]]).length
        = ([[0, 0], [1, 1]] : List (List Int)).length :=
  C10_fewer_vectors_truncates_and_marks_ready 2 "d1" "s1"
    [Page.mk "abc" 1 "f.pdf"] (fun s => [s, s, s])
    (fun _ => .ok [[0, 0], [1, 1]]) [[0, 0], [1, 1]]
    (Store.mk [DocRecord.mk "d1" "s1" "f.pdf" .PROCESSING 0 none] [])
    (by decide) rfl (by decide) (by decide) (by decide)

/-- C6: in every reachable sequence of status updates for one document
record — PROCESSING at creation followed by the single final update the
upload/ingestion flow performs — once the status is terminal (READY or
ERROR) every later position of the sequence carries that same status; in
particular no record ever returns to PROCESSING. -/
theorem C6_terminal_status_never_left (saveOk : Bool) (D : Nat)
    (documentId sessionId : String)
    (loadResult : Except String (List Page))
    (splitText : String → List String)
    (embedDocuments : List String → Except String (List (List Int)))
    (b : InsertBehavior) (chunks0 : List ChunkDoc) (i j : Nat)
    (hi : i < (docStatusTrace saveOk D documentId sessionId loadResult
      splitText embedDocuments b chunks0).length)
    (hj : j < (docStatusTrace saveOk D documentId sessionId loadResult
      splitText embedDocuments b chunks0).length)
    (hij : i ≤ j)
    (hterm : isTerminal ((docStatusTrace saveOk D documentId sessionId
      loadResult splitText embedDocuments b chunks0).get ⟨i, hi⟩) = true) :
    (docStatusTrace saveOk D documentId sessionId loadResult splitText
        embedDocuments b chunks0).get ⟨j, hj⟩
      = (docStatusTrace saveOk D documentId sessionId loadResult splitText
          embedDocuments b chunks0).get ⟨i, hi⟩ := by
  cases i with
  | zero =>
    have h0 : isTerminal DocStatus.PROCESSING = true := hterm
    simp [isTerminal] at h0
  | succ i1 =>
    cases i1 with
    | zero =>
      cases j with
      | zero => omega
      | succ j1 =>
        cases j1 with
        | zero => rfl
        | succ j2 =>
          exfalso
          have h2 : j2 + 2 < 2 := hj
          omega
    | succ i2 =>
      exfalso
      have h2 : i2 + 2 < 2 := hi
      omega

/-- Witness for C6 at a concrete trace (failed save, so the final status
is ERROR) with `i = j = 1`, the terminal position. -/
theorem C6_terminal_status_never_left_witness :
    (docStatusTrace false 2 "d1" "s1" (.ok []) (fun s => [s])
        (fun _ => .ok []) .ok []).get ⟨1, by decide⟩
      = (docStatusTrace false 2 "d1" "s1" (.ok []) (fun s => [s])
          (fun _ => .ok []) .ok []).get ⟨1, by decide⟩ :=
  C6_terminal_status_never_left false 2 "d1" "s1" (.ok []) (fun s => [s])
    (fun _ => .ok []) .ok [] 1 1 (by decide) (by decide) (by decide)
    (by decide)

/-- C7: retrieval scoped to session `A` only ever returns passages whose
stored chunk carries `sessionId = A`: every returned document is the
image of a chunk of the store matching the session filter, so for any
other session `B ≠ A` no passage stored under `B` is ever returned, for
any query vector, any score assignment, and any optional document
filter. -/
theorem C7_session_scoping_isolation (score : ChunkDoc → Int)
    (qv : List Int) (A B : String) (documentId : Option String)
    (nc k : Nat) (store : List ChunkDoc) (docs : List RetrievedDoc)
    (hAB : A ≠ B)
    (hres : retrieveFromStore score (.ok qv) A documentId nc k store
      = .ok docs)
    (d : RetrievedDoc) (hd : d ∈ docs) :
    ∃ c, c ∈ store ∧ c.sessionId = A ∧ c.sessionId ≠ B ∧
      d = toDoc (projectChunk score c) := by
  by_cases h384 : qv.length = 384
  · simp only [retrieveFromStore, get_relevant_documents, h384] at hres
    rw [if_neg (by simp)] at hres
    have hdocs : docsOfResults (vectorSearchExec score
        (vector_search_filter A documentId) nc k store) = docs := by
      exact Except.ok.inj hres
    rw [← hdocs, docsOfResults_eq] at hd
    rcases List.mem_map.mp hd with ⟨r, hr, hrd⟩
    have hr1 := (List.mem_filter.mp hr).1
    rcases mem_vectorSearchExec hr1 with ⟨c, hcs, hcm, hcr⟩
    have hsess : c.sessionId = A := by
      have := (Bool.and_eq_true _ _).mp hcm
      simpa [vector_search_filter] using this.1
    refine ⟨c, hcs, hsess, ?_, ?_⟩
    · rw [hsess]; exact hAB
    · rw [← hrd, hcr]
  · exfalso
    simp only [retrieveFromStore, get_relevant_documents] at hres
    rw [if_pos (by simp [h384])] at hres
    cases hres

/-- Witness for C7: a store holding one chunk in session "A" and one in
session "B" with different text; the "A"-scoped retrieval returns only
the "A" chunk's projection. -/
theorem C7_session_scoping_isolation_witness :
    ∃ c,
      c ∈ [ChunkDoc.mk "A" "d1" "ta" [0] 1 "f.pdf" 0,
           ChunkDoc.mk "B" "d2" "tb" [0] 1 "g.pdf" 0]
      ∧ c.sessionId = "A" ∧ c.sessionId ≠ "B"
      ∧ RetrievedDoc.mk "ta" 1 "f.pdf" "d1" 0
        = toDoc (projectChunk (fun _ => 0) c) :=
  C7_session_scoping_isolation (fun _ => 0) (List.replicate 384 0) "A" "B"
    none 10 5
    [ChunkDoc.mk "A" "d1" "ta" [0] 1 "f.pdf" 0,
     ChunkDoc.mk "B" "d2" "tb" [0] 1 "g.pdf" 0]
    [RetrievedDoc.mk "ta" 1 "f.pdf" "d1" 0]
    (by decide) (by rfl) (RetrievedDoc.mk "ta" 1 "f.pdf" "d1" 0)
    (List.mem_singleton.mpr rfl)

/-- C9 counterexample: the claim fails for a provided EMPTY session_id:
`""` differs from the stored sessionId `"s1"`, yet `if session_id:` is
false for `""`, so the document delete is not session-filtered and the
documents collection changes (the record is deleted). -/
theorem C9_counterexample :
    delete_document_and_chunks "d1" (some "")
        [DocRecord.mk "d1" "s1" "f.pdf" .READY 1 none]
        [ChunkDoc.mk "s1" "d1" "t" [0] 1 "f.pdf" 0]
      = ([], []) ∧ ("" : String) ≠ "s1" :=
  ⟨rfl, by decide⟩

/-- C9 (amended): for every provided NON-EMPTY session_id that differs
from the sessionId of every stored record with the given documentId, the
delete operation leaves the documents collection unchanged (the
session-filtered `delete_one` matches nothing) yet still removes every
chunk whose documentId matches — the chunk delete carries no session
filter. -/
theorem C9_session_mismatch_keeps_documents_deletes_chunks
    (documents : List DocRecord) (chunks : List ChunkDoc)
    (documentId s : String) (hs : s ≠ "")
    (hmis : ∀ d ∈ documents, d.documentId = documentId → d.sessionId ≠ s) :
    delete_document_and_chunks documentId (some s) documents chunks
      = (documents,
         chunks.filter (fun c => !(c.documentId == documentId))) := by
  unfold delete_document_and_chunks
  rw [deleteOneDoc_no_match]
  intro d hd
  unfold deleteDocQuery
  by_cases h1 : d.documentId = documentId
  · simp [h1, hs, hmis d hd h1]
  · simp [h1]

/-- Witness for C9's amended theorem: session "s2" provided, record stored
under "s1"; the record survives, both chunks of "d1" would be removed by
the unfiltered chunk delete. -/
theorem C9_session_mismatch_keeps_documents_deletes_chunks_witness :
    delete_document_and_chunks "d1" (some "s2")
        [DocRecord.mk "d1" "s1" "f.pdf" .READY 1 none]
        [ChunkDoc.mk "s1" "d1" "t" [0] 1 "f.pdf" 0,
         ChunkDoc.mk "s1" "d2" "u" [0] 1 "g.pdf" 0]
      = ([DocRecord.mk "d1" "s1" "f.pdf" .READY 1 none],
         [ChunkDoc.mk "s1" "d1" "t" [0] 1 "f.pdf" 0,
          ChunkDoc.mk "s1" "d2" "u" [0] 1 "g.pdf" 0].filter
           (fun c => !(c.documentId == "d1"))) :=
  C9_session_mismatch_keeps_documents_deletes_chunks
    [DocRecord.mk "d1" "s1" "f.pdf" .READY 1 none]
    [ChunkDoc.mk "s1" "d1" "t" [0] 1 "f.pdf" 0,
     ChunkDoc.mk "s1" "d2" "u" [0] 1 "g.pdf" 0]
    "d1" "s2" (by decide) (by decide)

end DocuChat
